import Mathlib

/-!
Verification of the eps-udistrital-express backend: a CRUD HTTP service over
three entities (Doctor, Paciente, Cita) backed by a relational store.

The embedding models the storage layer (sequelize + MySQL constraints:
not-null columns, the `especialidad` enum, primary-key uniqueness, the
composite key of `cita`, and the foreign keys from `cita` to `doctor` and
`paciente`) as explicit state passing over a `DB` record, and each Express
handler from `src/controller` as a pure function `DB → input → Response × DB`.
Connectivity failures are modelled by a `conn` flag on the state; foreign
keys restrict deletion/key-update of referenced rows (plain `REFERENCES`
semantics of the MySQL schema the models map onto).
-/

namespace Eps

/-- Doctor row, from `src/models/doctores.model.ts`: integer primary key
`id_profesional`, four required string columns, and the `especialidad`
enum column. -/
structure Doctor where
  id_profesional : Int
  nombre : String
  apellido : String
  correo : String
  telefono : String
  especialidad : String
deriving DecidableEq, Repr

/-- Paciente row, from `src/models/paciente.model.ts`: integer primary key
`id_numeroCedula`, required strings, and the required `fecha_nacimiento`
date (dates are modelled as integer timestamps). -/
structure Paciente where
  id_numeroCedula : Int
  nombre : String
  apellido : String
  fecha_nacimiento : Int
  telefono : String
deriving DecidableEq, Repr

/-- Cita row, from `src/models/cita.model.ts`: composite primary key
(`fecha_hora`, `id_profesional`, `id_numeroCedula`), the last two being
foreign keys to Doctor and Paciente. -/
structure Cita where
  fecha_hora : Int
  id_profesional : Int
  id_numeroCedula : Int
deriving DecidableEq, Repr

/-- A request body for Doctor create/update: every column optional, since
`req.body` may provide any subset of fields. -/
structure DoctorPayload where
  id_profesional : Option Int
  nombre : Option String
  apellido : Option String
  correo : Option String
  telefono : Option String
  especialidad : Option String
deriving DecidableEq, Repr

/-- A request body for Paciente create/update. -/
structure PacientePayload where
  id_numeroCedula : Option Int
  nombre : Option String
  apellido : Option String
  fecha_nacimiento : Option Int
  telefono : Option String
deriving DecidableEq, Repr

/-- A request body for Cita create/update. -/
structure CitaPayload where
  fecha_hora : Option Int
  id_profesional : Option Int
  id_numeroCedula : Option Int
deriving DecidableEq, Repr

/-- Errors the storage layer can raise: lost connectivity, or one of the
schema constraint violations. -/
inductive DBError where
  | connect : DBError
  | notNullViolation : DBError
  | invalidEnum : DBError
  | foreignKeyViolation : DBError
  | uniqueViolation : DBError
deriving DecidableEq, Repr

/-- The `message` property of the raised error object. -/
def DBError.message : DBError → String
  | .connect => "connect ECONNREFUSED"
  | .notNullViolation => "notNull Violation: column cannot be null"
  | .invalidEnum => "Data truncated for column especialidad"
  | .foreignKeyViolation => "a foreign key constraint fails"
  | .uniqueViolation => "Validation error: PRIMARY must be unique"

/-- The `stack` property of the raised error object (used by the two create
handlers that attach `err.stack` instead of `err.message`). -/
def DBError.stack (e : DBError) : String :=
  "Error: " ++ e.message

/-- The `data` field of a success envelope. -/
inductive JsonData where
  | doctor : Doctor → JsonData
  | doctores : List Doctor → JsonData
  | paciente : Paciente → JsonData
  | pacientes : List Paciente → JsonData
  | cita : Cita → JsonData
  | citas : List Cita → JsonData
deriving DecidableEq, Repr

/-- The JSON body every handler sends: a `message`, an optional `data`
payload, and an optional `error` string. -/
structure JsonBody where
  message : String
  data : Option JsonData
  error : Option String
deriving DecidableEq, Repr

/-- An HTTP response: status code plus JSON body. -/
structure Response where
  status : Nat
  body : JsonBody
deriving DecidableEq, Repr

/-- The persistent state: the three tables, plus a `conn` flag modelling
whether the database is reachable. -/
structure DB where
  conn : Bool
  doctores : List Doctor
  pacientes : List Paciente
  citas : List Cita
deriving DecidableEq, Repr

/-- The two allowed values of the `especialidad` enum column. -/
def especialidades : List String :=
  ["medicina_interna", "medicina_general"]

/-- Row lookup `doctor.id_profesional = id` (the where-clause of
`Doctor.findByPk`). -/
def findDoctor (s : DB) (id : Int) : Option Doctor :=
  s.doctores.find? (fun d => d.id_profesional == id)

/-- Row lookup `paciente.id_numeroCedula = id`. -/
def findPaciente (s : DB) (id : Int) : Option Paciente :=
  s.pacientes.find? (fun p => p.id_numeroCedula == id)

/-- Row lookup by the full composite key of `cita`. -/
def findCita (s : DB) (fecha prof pac : Int) : Option Cita :=
  s.citas.find?
    (fun c => c.fecha_hora == fecha && c.id_profesional == prof && c.id_numeroCedula == pac)

/-- `Doctor.findAll()`. -/
def doctorFindAll (s : DB) : Except DBError (List Doctor) :=
  if s.conn then .ok s.doctores else .error .connect

/-- `Doctor.findByPk(id)`. -/
def doctorFindByPk (s : DB) (id : Int) : Except DBError (Option Doctor) :=
  if s.conn then .ok (findDoctor s id) else .error .connect

/-- `Doctor.create(body)`: checks the not-null columns, the `especialidad`
enum, and primary-key uniqueness, then inserts the row. -/
def doctorCreate (s : DB) (p : DoctorPayload) : Except DBError (Doctor × DB) :=
  if !s.conn then .error .connect
  else
    match p.id_profesional, p.nombre, p.apellido, p.correo, p.telefono, p.especialidad with
    | some id, some no, some ap, some co, some te, some es =>
      if es ∈ especialidades then
        if (findDoctor s id).isSome then .error .uniqueViolation
        else
          .ok (⟨id, no, ap, co, te, es⟩,
               { s with doctores := s.doctores ++ [⟨id, no, ap, co, te, es⟩] })
      else .error .invalidEnum
    | _, _, _, _, _, _ => .error .notNullViolation

/-- The row produced by `UPDATE doctor SET <provided fields>` on one row. -/
def applyDoctorUpdate (d : Doctor) (p : DoctorPayload) : Doctor :=
  { id_profesional := p.id_profesional.getD d.id_profesional
    nombre := p.nombre.getD d.nombre
    apellido := p.apellido.getD d.apellido
    correo := p.correo.getD d.correo
    telefono := p.telefono.getD d.telefono
    especialidad := p.especialidad.getD d.especialidad }

/-- `Doctor.update(body, {where: {id_profesional: id}})`: partial update of
the matching row, subject to the enum constraint, primary-key uniqueness,
and the foreign key from `cita` restricting a key change of a referenced
doctor. -/
def doctorUpdate (s : DB) (id : Int) (p : DoctorPayload) : Except DBError DB :=
  if !s.conn then .error .connect
  else
    match findDoctor s id with
    | none => .ok s
    | some d =>
      if (applyDoctorUpdate d p).especialidad ∈ especialidades then
        if (applyDoctorUpdate d p).id_profesional ≠ d.id_profesional ∧
            (findDoctor s (applyDoctorUpdate d p).id_profesional).isSome then
          .error .uniqueViolation
        else if (applyDoctorUpdate d p).id_profesional ≠ d.id_profesional ∧
            s.citas.any (fun c => c.id_profesional == d.id_profesional) then
          .error .foreignKeyViolation
        else
          .ok { s with
                doctores := s.doctores.map
                  (fun x => if x.id_profesional == id then applyDoctorUpdate d p else x) }
      else .error .invalidEnum

/-- `Doctor.destroy({where: {id_profesional: id}})`: physical delete,
restricted by the foreign key from `cita`. -/
def doctorDestroy (s : DB) (id : Int) : Except DBError DB :=
  if !s.conn then .error .connect
  else if s.citas.any (fun c => c.id_profesional == id) then
    .error .foreignKeyViolation
  else
    .ok { s with doctores := s.doctores.filter (fun d => !(d.id_profesional == id)) }

/-- Handler `getDoctores` (`src/controller/doctor.controller.ts`). -/
def getDoctores (s : DB) : Response × DB :=
  match doctorFindAll s with
  | .ok ds => (⟨200, ⟨"Operación exitosa", some (.doctores ds), none⟩⟩, s)
  | .error e => (⟨500, ⟨"Error al obtener los doctores", none, some e.message⟩⟩, s)

/-- Handler `getDoctorById`. -/
def getDoctorById (s : DB) (id : Int) : Response × DB :=
  match doctorFindByPk s id with
  | .ok (some d) => (⟨200, ⟨"Doctor encontrado", some (.doctor d), none⟩⟩, s)
  | .ok none => (⟨404, ⟨"Doctor no encontrado", none, none⟩⟩, s)
  | .error e => (⟨500, ⟨"Error al obtener los doctores", none, some e.message⟩⟩, s)

/-- Handler `createDoctor`; note its catch block attaches `err.stack`. -/
def createDoctor (s : DB) (body : DoctorPayload) : Response × DB :=
  match doctorCreate s body with
  | .ok (d, s') => (⟨201, ⟨"Doctor creado!", some (.doctor d), none⟩⟩, s')
  | .error e => (⟨500, ⟨"No se pudo crear el doctor", none, some e.stack⟩⟩, s)

/-- Handler `updateDoctor`: `findByPk` first, then conditional update. -/
def updateDoctor (s : DB) (id : Int) (body : DoctorPayload) : Response × DB :=
  match doctorFindByPk s id with
  | .error e => (⟨500, ⟨"Error al modificar el doctor", none, some e.message⟩⟩, s)
  | .ok none => (⟨404, ⟨"Doctor no existe", none, none⟩⟩, s)
  | .ok (some _) =>
    match doctorUpdate s id body with
    | .ok s' => (⟨200, ⟨"Doctor actualizado", none, none⟩⟩, s')
    | .error e => (⟨500, ⟨"Error al modificar el doctor", none, some e.message⟩⟩, s)

/-- Handler `deleteDoctor`: `findByPk` first, then conditional destroy. -/
def deleteDoctor (s : DB) (id : Int) : Response × DB :=
  match doctorFindByPk s id with
  | .error e => (⟨500, ⟨"Error al eliminar el doctor", none, some e.message⟩⟩, s)
  | .ok none => (⟨404, ⟨"Doctor no existe", none, none⟩⟩, s)
  | .ok (some _) =>
    match doctorDestroy s id with
    | .ok s' => (⟨200, ⟨"Doctor eliminado", none, none⟩⟩, s')
    | .error e => (⟨500, ⟨"Error al eliminar el doctor", none, some e.message⟩⟩, s)

/-- `Paciente.findAll()`. -/
def pacienteFindAll (s : DB) : Except DBError (List Paciente) :=
  if s.conn then .ok s.pacientes else .error .connect

/-- `Paciente.findByPk(id)`. -/
def pacienteFindByPk (s : DB) (id : Int) : Except DBError (Option Paciente) :=
  if s.conn then .ok (findPaciente s id) else .error .connect

/-- `Paciente.create(body)`: checks the not-null columns and primary-key
uniqueness, then inserts the row. -/
def pacienteCreate (s : DB) (p : PacientePayload) : Except DBError (Paciente × DB) :=
  if !s.conn then .error .connect
  else
    match p.id_numeroCedula, p.nombre, p.apellido, p.fecha_nacimiento, p.telefono with
    | some id, some no, some ap, some fe, some te =>
      if (findPaciente s id).isSome then .error .uniqueViolation
      else
        .ok (⟨id, no, ap, fe, te⟩,
             { s with pacientes := s.pacientes ++ [⟨id, no, ap, fe, te⟩] })
    | _, _, _, _, _ => .error .notNullViolation

/-- The row produced by `UPDATE paciente SET <provided fields>` on one row. -/
def applyPacienteUpdate (d : Paciente) (p : PacientePayload) : Paciente :=
  { id_numeroCedula := p.id_numeroCedula.getD d.id_numeroCedula
    nombre := p.nombre.getD d.nombre
    apellido := p.apellido.getD d.apellido
    fecha_nacimiento := p.fecha_nacimiento.getD d.fecha_nacimiento
    telefono := p.telefono.getD d.telefono }

/-- `Paciente.update(body, {where: {id_numeroCedula: id}})`: partial update
of the matching row, subject to primary-key uniqueness and the foreign key
from `cita` restricting a key change of a referenced patient. -/
def pacienteUpdate (s : DB) (id : Int) (p : PacientePayload) : Except DBError DB :=
  if !s.conn then .error .connect
  else
    match findPaciente s id with
    | none => .ok s
    | some d =>
      if (applyPacienteUpdate d p).id_numeroCedula ≠ d.id_numeroCedula ∧
          (findPaciente s (applyPacienteUpdate d p).id_numeroCedula).isSome then
        .error .uniqueViolation
      else if (applyPacienteUpdate d p).id_numeroCedula ≠ d.id_numeroCedula ∧
          s.citas.any (fun c => c.id_numeroCedula == d.id_numeroCedula) then
        .error .foreignKeyViolation
      else
        .ok { s with
              pacientes := s.pacientes.map
                (fun x => if x.id_numeroCedula == id then applyPacienteUpdate d p else x) }

/-- `Paciente.destroy({where: {id_numeroCedula: id}})`: physical delete,
restricted by the foreign key from `cita`. -/
def pacienteDestroy (s : DB) (id : Int) : Except DBError DB :=
  if !s.conn then .error .connect
  else if s.citas.any (fun c => c.id_numeroCedula == id) then
    .error .foreignKeyViolation
  else
    .ok { s with pacientes := s.pacientes.filter (fun d => !(d.id_numeroCedula == id)) }

/-- Handler `getPacientes` (`src/controller/paciente.controller.ts`). -/
def getPacientes (s : DB) : Response × DB :=
  match pacienteFindAll s with
  | .ok ps => (⟨200, ⟨"Operación exitosa", some (.pacientes ps), none⟩⟩, s)
  | .error e => (⟨500, ⟨"Error al obtener los pacientes", none, some e.message⟩⟩, s)

/-- Handler `getPacienteById`. -/
def getPacienteById (s : DB) (id : Int) : Response × DB :=
  match pacienteFindByPk s id with
  | .ok (some d) => (⟨200, ⟨"Paciente encontrado", some (.paciente d), none⟩⟩, s)
  | .ok none => (⟨404, ⟨"Paciente no encontrado", none, none⟩⟩, s)
  | .error e => (⟨500, ⟨"Error al obtener los pacientes", none, some e.message⟩⟩, s)

/-- Handler `createPaciente`; its catch block attaches `err.stack`. -/
def createPaciente (s : DB) (body : PacientePayload) : Response × DB :=
  match pacienteCreate s body with
  | .ok (d, s') => (⟨201, ⟨"Paciente creado!", some (.paciente d), none⟩⟩, s')
  | .error e => (⟨500, ⟨"No se pudo crear el paciente", none, some e.stack⟩⟩, s)

/-- Handler `updatePaciente`; its catch block's message is the
success-sounding string "Paciente modificado" (exactly as in the source). -/
def updatePaciente (s : DB) (id : Int) (body : PacientePayload) : Response × DB :=
  match pacienteFindByPk s id with
  | .error e => (⟨500, ⟨"Paciente modificado", none, some e.message⟩⟩, s)
  | .ok none => (⟨404, ⟨"Paciente no existe", none, none⟩⟩, s)
  | .ok (some _) =>
    match pacienteUpdate s id body with
    | .ok s' => (⟨200, ⟨"Paciente actualizado", none, none⟩⟩, s')
    | .error e => (⟨500, ⟨"Paciente modificado", none, some e.message⟩⟩, s)

/-- Handler `deletePaciente`. -/
def deletePaciente (s : DB) (id : Int) : Response × DB :=
  match pacienteFindByPk s id with
  | .error e => (⟨500, ⟨"Error al eliminar el paciente", none, some e.message⟩⟩, s)
  | .ok none => (⟨404, ⟨"Paciente no existe", none, none⟩⟩, s)
  | .ok (some _) =>
    match pacienteDestroy s id with
    | .ok s' => (⟨200, ⟨"Paciente eliminado", none, none⟩⟩, s')
    | .error e => (⟨500, ⟨"Error al eliminar el paciente", none, some e.message⟩⟩, s)

/-- `Cita.findAll()`. -/
def citaFindAll (s : DB) : Except DBError (List Cita) :=
  if s.conn then .ok s.citas else .error .connect

/-- `Cita.findOne({where})` on the full composite key. -/
def citaFindOne (s : DB) (fecha prof pac : Int) : Except DBError (Option Cita) :=
  if s.conn then .ok (findCita s fecha prof pac) else .error .connect

/-- `Cita.create(body)`: checks the not-null columns, both foreign keys,
and composite-key uniqueness, then inserts the row. -/
def citaCreate (s : DB) (p : CitaPayload) : Except DBError (Cita × DB) :=
  if !s.conn then .error .connect
  else
    match p.fecha_hora, p.id_profesional, p.id_numeroCedula with
    | some fe, some pr, some pa =>
      if (findDoctor s pr).isNone then .error .foreignKeyViolation
      else if (findPaciente s pa).isNone then .error .foreignKeyViolation
      else if (findCita s fe pr pa).isSome then .error .uniqueViolation
      else
        .ok (⟨fe, pr, pa⟩, { s with citas := s.citas ++ [⟨fe, pr, pa⟩] })
    | _, _, _ => .error .notNullViolation

/-- The row produced by `UPDATE cita SET <provided fields>` on one row. -/
def applyCitaUpdate (c : Cita) (p : CitaPayload) : Cita :=
  { fecha_hora := p.fecha_hora.getD c.fecha_hora
    id_profesional := p.id_profesional.getD c.id_profesional
    id_numeroCedula := p.id_numeroCedula.getD c.id_numeroCedula }

/-- `Cita.update(body, {where})` on the composite key: partial update of
the matching row, subject to both foreign keys and composite-key
uniqueness. -/
def citaUpdate (s : DB) (fecha prof pac : Int) (p : CitaPayload) : Except DBError DB :=
  if !s.conn then .error .connect
  else
    match findCita s fecha prof pac with
    | none => .ok s
    | some c =>
      if (findDoctor s (applyCitaUpdate c p).id_profesional).isNone then
        .error .foreignKeyViolation
      else if (findPaciente s (applyCitaUpdate c p).id_numeroCedula).isNone then
        .error .foreignKeyViolation
      else if ((applyCitaUpdate c p).fecha_hora, (applyCitaUpdate c p).id_profesional,
               (applyCitaUpdate c p).id_numeroCedula) ≠ (fecha, prof, pac) ∧
          (findCita s (applyCitaUpdate c p).fecha_hora (applyCitaUpdate c p).id_profesional
            (applyCitaUpdate c p).id_numeroCedula).isSome then
        .error .uniqueViolation
      else
        .ok { s with
              citas := s.citas.map
                (fun x =>
                  if x.fecha_hora == fecha && x.id_profesional == prof &&
                      x.id_numeroCedula == pac then
                    applyCitaUpdate c p
                  else x) }

/-- `Cita.destroy({where})` on the composite key: physical delete (no table
references `cita`, so no foreign key restricts it). -/
def citaDestroy (s : DB) (fecha prof pac : Int) : Except DBError DB :=
  if !s.conn then .error .connect
  else
    .ok { s with
          citas := s.citas.filter
            (fun c => !(c.fecha_hora == fecha && c.id_profesional == prof &&
                        c.id_numeroCedula == pac)) }

/-- Handler `getCitas` (`src/controller/citas.controller.ts`). -/
def getCitas (s : DB) : Response × DB :=
  match citaFindAll s with
  | .ok cs => (⟨200, ⟨"Operación exitosa", some (.citas cs), none⟩⟩, s)
  | .error e => (⟨500, ⟨"Error al obtener las citas", none, some e.message⟩⟩, s)

/-- Handler `getOneCita`: query parameters `profesional`, `paciente`,
`fecha`; its catch block's message is "Error al obtener los doctores"
(exactly as in the source). -/
def getOneCita (s : DB) (prof pac fecha : Int) : Response × DB :=
  match citaFindOne s fecha prof pac with
  | .ok (some c) => (⟨200, ⟨"Cita encontrada", some (.cita c), none⟩⟩, s)
  | .ok none => (⟨404, ⟨"Cita no encontrada", none, none⟩⟩, s)
  | .error e => (⟨500, ⟨"Error al obtener los doctores", none, some e.message⟩⟩, s)

/-- Handler `createCita`; its catch block attaches `err.message`. -/
def createCita (s : DB) (body : CitaPayload) : Response × DB :=
  match citaCreate s body with
  | .ok (c, s') => (⟨201, ⟨"Cita creada!", some (.cita c), none⟩⟩, s')
  | .error e => (⟨500, ⟨"No se pudo crear la cita", none, some e.message⟩⟩, s)

/-- Handler `updateCita`: `findOne` on the composite key first, then
conditional update with the same where-clause. -/
def updateCita (s : DB) (prof pac fecha : Int) (body : CitaPayload) : Response × DB :=
  match citaFindOne s fecha prof pac with
  | .error e => (⟨500, ⟨"Error al modificar la cita", none, some e.message⟩⟩, s)
  | .ok none => (⟨404, ⟨"Cita no existe", none, none⟩⟩, s)
  | .ok (some _) =>
    match citaUpdate s fecha prof pac body with
    | .ok s' => (⟨200, ⟨"Cita actualizada", none, none⟩⟩, s')
    | .error e => (⟨500, ⟨"Error al modificar la cita", none, some e.message⟩⟩, s)

/-- Handler `deleteCita`: `findOne` first, then conditional destroy. -/
def deleteCita (s : DB) (prof pac fecha : Int) : Response × DB :=
  match citaFindOne s fecha prof pac with
  | .error e => (⟨500, ⟨"Error al eliminar la cita", none, some e.message⟩⟩, s)
  | .ok none => (⟨404, ⟨"Cita no existe", none, none⟩⟩, s)
  | .ok (some _) =>
    match citaDestroy s fecha prof pac with
    | .ok s' => (⟨200, ⟨"Cita eliminada", none, none⟩⟩, s')
    | .error e => (⟨500, ⟨"Error al eliminar la cita", none, some e.message⟩⟩, s)

/-- The composite primary key of a `cita` row. -/
def citaKey (c : Cita) : Int × Int × Int :=
  (c.fecha_hora, c.id_profesional, c.id_numeroCedula)

/-- Primary-key uniqueness of the `doctor` table. -/
def DoctoresWF (l : List Doctor) : Prop :=
  l.Pairwise (fun a b => a.id_profesional ≠ b.id_profesional)

/-- Primary-key uniqueness of the `paciente` table. -/
def PacientesWF (l : List Paciente) : Prop :=
  l.Pairwise (fun a b => a.id_numeroCedula ≠ b.id_numeroCedula)

/-- Composite-key uniqueness of the `cita` table. -/
def CitasWF (l : List Cita) : Prop :=
  l.Pairwise (fun a b => citaKey a ≠ citaKey b)

/-- Referential integrity: every stored cita references an existing doctor
and an existing patient. -/
def RefIntegrity (s : DB) : Prop :=
  ∀ c ∈ s.citas, (findDoctor s c.id_profesional).isSome ∧
    (findPaciente s c.id_numeroCedula).isSome

/-- Full well-formedness of a database state. -/
def WF (s : DB) : Prop :=
  DoctoresWF s.doctores ∧ PacientesWF s.pacientes ∧ CitasWF s.citas ∧ RefIntegrity s

/-- One observable transition of the stored state: any handler invocation,
or the environment toggling connectivity. -/
inductive Step : DB → DB → Prop where
  | setConn (s : DB) (b : Bool) : Step s { s with conn := b }
  | getDoctores (s : DB) : Step s (getDoctores s).2
  | getDoctorById (s : DB) (id : Int) : Step s (getDoctorById s id).2
  | createDoctor (s : DB) (p : DoctorPayload) : Step s (createDoctor s p).2
  | updateDoctor (s : DB) (id : Int) (p : DoctorPayload) : Step s (updateDoctor s id p).2
  | deleteDoctor (s : DB) (id : Int) : Step s (deleteDoctor s id).2
  | getPacientes (s : DB) : Step s (getPacientes s).2
  | getPacienteById (s : DB) (id : Int) : Step s (getPacienteById s id).2
  | createPaciente (s : DB) (p : PacientePayload) : Step s (createPaciente s p).2
  | updatePaciente (s : DB) (id : Int) (p : PacientePayload) : Step s (updatePaciente s id p).2
  | deletePaciente (s : DB) (id : Int) : Step s (deletePaciente s id).2
  | getCitas (s : DB) : Step s (getCitas s).2
  | getOneCita (s : DB) (prof pac fecha : Int) : Step s (getOneCita s prof pac fecha).2
  | createCita (s : DB) (p : CitaPayload) : Step s (createCita s p).2
  | updateCita (s : DB) (prof pac fecha : Int) (p : CitaPayload) :
      Step s (updateCita s prof pac fecha p).2
  | deleteCita (s : DB) (prof pac fecha : Int) : Step s (deleteCita s prof pac fecha).2

/-- The empty initial state (fresh schema, database reachable). -/
def initDB : DB :=
  ⟨true, [], [], []⟩

/-- A state is reachable when some sequence of handler invocations and
connectivity changes produces it from the empty state. -/
def Reachable (s : DB) : Prop :=
  Relation.ReflTransGen Step initDB s

/-- Concrete fixture: the spec's sample doctor. -/
def anaDoctor : Doctor :=
  ⟨1, "Ana", "Ruiz", "a@x.com", "555", "medicina_general"⟩

/-- Concrete fixture: a create payload carrying exactly `anaDoctor`. -/
def anaPayload : DoctorPayload :=
  ⟨some 1, some "Ana", some "Ruiz", some "a@x.com", some "555", some "medicina_general"⟩

/-- Concrete fixture: two patients with ids 10 and 11. -/
def luisPaciente : Paciente :=
  ⟨10, "Luis", "Diaz", 0, "556"⟩

/-- Concrete fixture: second patient. -/
def martaPaciente : Paciente :=
  ⟨11, "Marta", "Gil", 1, "557"⟩

/-- Concrete fixture: a state holding one doctor and one patient, no citas. -/
def dbDoctorPaciente : DB :=
  ⟨true, [anaDoctor], [luisPaciente], []⟩

/-- Concrete fixture: a cita payload for doctor 1, patient 10, time 5. -/
def citaPayload5 : CitaPayload :=
  ⟨some 5, some 1, some 10⟩

/-- Concrete fixture: a state with one doctor, one patient and one cita. -/
def dbWithCita : DB :=
  ⟨true, [anaDoctor], [luisPaciente], [⟨5, 1, 10⟩]⟩

/-- Concrete fixture: a state with two patients (used for the duplicated-key
update failure). -/
def dbTwoPacientes : DB :=
  ⟨true, [], [luisPaciente, martaPaciente], []⟩

/-- All required Doctor columns present in the request body. -/
def DoctorPayloadComplete (p : DoctorPayload) : Prop :=
  p.id_profesional.isSome ∧ p.nombre.isSome ∧ p.apellido.isSome ∧
    p.correo.isSome ∧ p.telefono.isSome ∧ p.especialidad.isSome

/-- Concrete fixture: a complete Doctor payload whose `especialidad` is not
an allowed enum value. -/
def odontoPayload : DoctorPayload :=
  ⟨some 1, some "Ana", some "Ruiz", some "a@x.com", some "555", some "odontologia"⟩

/-- Concrete fixture: a state where doctor 1 has two citas at the same time
with the two different patients. -/
def dbDoubleBooked : DB :=
  ⟨true, [anaDoctor], [luisPaciente, martaPaciente], [⟨5, 1, 10⟩, ⟨5, 1, 11⟩]⟩

/-- Concrete fixture: a state whose database is unreachable. -/
def dbDown : DB :=
  ⟨false, [], [], []⟩

/-- Concrete fixture: a Doctor update body that rewrites the primary key. -/
def pdNewId : DoctorPayload :=
  ⟨some 2, none, none, none, none, none⟩

/-- Concrete fixture: a Paciente update body that rewrites the primary key. -/
def ppNewId : PacientePayload :=
  ⟨some 12, none, none, none, none⟩

/-- Concrete fixture: a Paciente update body moving the key onto an existing
key (11). -/
def ppTo11 : PacientePayload :=
  ⟨some 11, none, none, none, none⟩

/-- Concrete fixture: a Cita update body that rewrites the `fecha_hora`
component of the composite key. -/
def pcNewFecha : CitaPayload :=
  ⟨some 6, none, none⟩

/-- Concrete fixture: a create payload carrying exactly `luisPaciente`. -/
def luisPayload : PacientePayload :=
  ⟨some 10, some "Luis", some "Diaz", some 0, some "556"⟩

/-- Concrete fixture: a create payload carrying exactly `martaPaciente`. -/
def martaPayload : PacientePayload :=
  ⟨some 11, some "Marta", some "Gil", some 1, some "557"⟩

/-- Concrete fixture: a cita payload for doctor 1, patient 11, time 5 —
same time and doctor as `citaPayload5`, different patient. -/
def citaPayload5b : CitaPayload :=
  ⟨some 5, some 1, some 11⟩

/-- Concrete fixture: the state after creating only `anaDoctor`. -/
def dbAna : DB :=
  ⟨true, [anaDoctor], [], []⟩

/-- Concrete fixture: `dbDoctorPaciente` plus the second patient. -/
def dbAnaPac2 : DB :=
  ⟨true, [anaDoctor], [luisPaciente, martaPaciente], []⟩

/-- Concrete fixture: `dbAnaPac2` plus the first cita. -/
def dbCita1 : DB :=
  ⟨true, [anaDoctor], [luisPaciente, martaPaciente], [⟨5, 1, 10⟩]⟩

/-! ### Basic lookup lemmas -/

theorem findDoctor_eq_none_iff (s : DB) (k : Int) :
    findDoctor s k = none ↔ ∀ d ∈ s.doctores, d.id_profesional ≠ k := by
  simp [findDoctor, List.find?_eq_none]

theorem findDoctor_isSome_iff (s : DB) (k : Int) :
    (findDoctor s k).isSome ↔ ∃ d ∈ s.doctores, d.id_profesional = k := by
  simp [findDoctor, List.find?_isSome]

theorem findPaciente_eq_none_iff (s : DB) (k : Int) :
    findPaciente s k = none ↔ ∀ d ∈ s.pacientes, d.id_numeroCedula ≠ k := by
  simp [findPaciente, List.find?_eq_none]

theorem findPaciente_isSome_iff (s : DB) (k : Int) :
    (findPaciente s k).isSome ↔ ∃ d ∈ s.pacientes, d.id_numeroCedula = k := by
  simp [findPaciente, List.find?_isSome]

theorem findCita_eq_none_iff (s : DB) (f pr pa : Int) :
    findCita s f pr pa = none ↔ ∀ c ∈ s.citas, ¬(c.fecha_hora = f ∧
      c.id_profesional = pr ∧ c.id_numeroCedula = pa) := by
  simp [findCita, List.find?_eq_none]

theorem findCita_isSome_iff (s : DB) (f pr pa : Int) :
    (findCita s f pr pa).isSome ↔ ∃ c ∈ s.citas, c.fecha_hora = f ∧
      c.id_profesional = pr ∧ c.id_numeroCedula = pa := by
  simp [findCita, List.find?_isSome, and_assoc]

/-! ### C1 and C2 -/

/-- C1: a valid Doctor payload (all required fields present, `especialidad`
one of the two enum values, key fresh, store reachable) makes `createDoctor`
reply 201 with the created record, and a subsequent `getDoctorById` on the
payload's key replies 200 with exactly that record. -/
theorem C1_createDoctor_then_get (s : DB) (p : DoctorPayload) (id : Int)
    (no ap co te es : String)
    (hconn : s.conn = true)
    (hid : p.id_profesional = some id) (hno : p.nombre = some no)
    (hap : p.apellido = some ap) (hco : p.correo = some co)
    (hte : p.telefono = some te) (hes : p.especialidad = some es)
    (henum : es ∈ especialidades)
    (hfresh : findDoctor s id = none) :
    createDoctor s p =
      (⟨201, ⟨"Doctor creado!", some (.doctor ⟨id, no, ap, co, te, es⟩), none⟩⟩,
       { s with doctores := s.doctores ++ [⟨id, no, ap, co, te, es⟩] }) ∧
    getDoctorById { s with doctores := s.doctores ++ [⟨id, no, ap, co, te, es⟩] } id =
      (⟨200, ⟨"Doctor encontrado", some (.doctor ⟨id, no, ap, co, te, es⟩), none⟩⟩,
       { s with doctores := s.doctores ++ [⟨id, no, ap, co, te, es⟩] }) := by
  constructor
  · simp [createDoctor, doctorCreate, hconn, hid, hno, hap, hco, hte, hes, henum, hfresh]
  · simp only [findDoctor] at hfresh
    simp [getDoctorById, doctorFindByPk, hconn, findDoctor, List.find?_append, hfresh]

/-- Witness for C1 at the spec's sample doctor on the empty state. -/
theorem C1_createDoctor_then_get_witness :
    createDoctor initDB anaPayload =
      (⟨201, ⟨"Doctor creado!", some (.doctor anaDoctor), none⟩⟩,
       ⟨true, [anaDoctor], [], []⟩) ∧
    getDoctorById ⟨true, [anaDoctor], [], []⟩ 1 =
      (⟨200, ⟨"Doctor encontrado", some (.doctor anaDoctor), none⟩⟩,
       ⟨true, [anaDoctor], [], []⟩) :=
  C1_createDoctor_then_get initDB anaPayload 1 "Ana" "Ruiz" "a@x.com" "555"
    "medicina_general" rfl rfl rfl rfl rfl rfl rfl (by decide) rfl

/-- C2: on a key with no matching Doctor row (store reachable), the get,
update and delete handlers all reply 404 and return the state unchanged. -/
theorem C2_absent_doctor_key (s : DB) (id : Int) (p : DoctorPayload)
    (hconn : s.conn = true) (habs : findDoctor s id = none) :
    getDoctorById s id = (⟨404, ⟨"Doctor no encontrado", none, none⟩⟩, s) ∧
    updateDoctor s id p = (⟨404, ⟨"Doctor no existe", none, none⟩⟩, s) ∧
    deleteDoctor s id = (⟨404, ⟨"Doctor no existe", none, none⟩⟩, s) := by
  refine ⟨?_, ?_, ?_⟩ <;>
    simp [getDoctorById, updateDoctor, deleteDoctor, doctorFindByPk, hconn, habs]

/-- Witness for C2 on key 7 in the empty state. -/
theorem C2_absent_doctor_key_witness :
    getDoctorById initDB 7 = (⟨404, ⟨"Doctor no encontrado", none, none⟩⟩, initDB) ∧
    updateDoctor initDB 7 anaPayload = (⟨404, ⟨"Doctor no existe", none, none⟩⟩, initDB) ∧
    deleteDoctor initDB 7 = (⟨404, ⟨"Doctor no existe", none, none⟩⟩, initDB) :=
  C2_absent_doctor_key initDB 7 anaPayload rfl rfl

/-! ### C3 and C4 -/

/-- C3: a cita payload accepted by `createCita` (all three key components
present, both references existing, composite key fresh, store reachable)
yields 201 with the created record, and a subsequent `getOneCita` on the
same triple replies 200 with the same record. -/
theorem C3_createCita_then_find (s : DB) (p : CitaPayload) (fe pr pa : Int)
    (hconn : s.conn = true)
    (hfe : p.fecha_hora = some fe) (hpr : p.id_profesional = some pr)
    (hpa : p.id_numeroCedula = some pa)
    (hdoc : (findDoctor s pr).isSome) (hpac : (findPaciente s pa).isSome)
    (hfresh : findCita s fe pr pa = none) :
    createCita s p =
      (⟨201, ⟨"Cita creada!", some (.cita ⟨fe, pr, pa⟩), none⟩⟩,
       { s with citas := s.citas ++ [⟨fe, pr, pa⟩] }) ∧
    getOneCita { s with citas := s.citas ++ [⟨fe, pr, pa⟩] } pr pa fe =
      (⟨200, ⟨"Cita encontrada", some (.cita ⟨fe, pr, pa⟩), none⟩⟩,
       { s with citas := s.citas ++ [⟨fe, pr, pa⟩] }) := by
  obtain ⟨d, hd⟩ := Option.isSome_iff_exists.mp hdoc
  obtain ⟨q, hq⟩ := Option.isSome_iff_exists.mp hpac
  constructor
  · simp [createCita, citaCreate, hconn, hfe, hpr, hpa, hd, hq, hfresh]
  · simp only [findCita] at hfresh
    simp [getOneCita, citaFindOne, hconn, findCita, List.find?_append, hfresh]

/-- Witness for C3: creating the sample cita on a state holding its doctor
and patient, then finding it again. -/
theorem C3_createCita_then_find_witness :
    createCita dbDoctorPaciente citaPayload5 =
      (⟨201, ⟨"Cita creada!", some (.cita ⟨5, 1, 10⟩), none⟩⟩,
       ⟨true, [anaDoctor], [luisPaciente], [⟨5, 1, 10⟩]⟩) ∧
    getOneCita ⟨true, [anaDoctor], [luisPaciente], [⟨5, 1, 10⟩]⟩ 1 10 5 =
      (⟨200, ⟨"Cita encontrada", some (.cita ⟨5, 1, 10⟩), none⟩⟩,
       ⟨true, [anaDoctor], [luisPaciente], [⟨5, 1, 10⟩]⟩) :=
  C3_createCita_then_find dbDoctorPaciente citaPayload5 5 1 10
    rfl rfl rfl rfl (by decide) (by decide) rfl

/-- C4: a Doctor payload with a disallowed `especialidad`, or missing any
required column, makes `createDoctor` reply with the 500 error envelope and
leave the state unchanged (no row persisted). -/
theorem C4_invalid_doctor_payload (s : DB) (p : DoctorPayload)
    (h : (∃ es, p.especialidad = some es ∧ es ∉ especialidades) ∨
      ¬DoctorPayloadComplete p) :
    (createDoctor s p).1.status = 500 ∧
    (createDoctor s p).1.body.error.isSome ∧
    (createDoctor s p).2 = s := by
  cases hc : s.conn with
  | false => simp [createDoctor, doctorCreate, hc]
  | true =>
    obtain ⟨o1, o2, o3, o4, o5, o6⟩ := p
    rcases h with ⟨es, hes, hnotin⟩ | hinc
    · simp only [] at hes
      cases o1 <;> cases o2 <;> cases o3 <;> cases o4 <;> cases o5 <;>
        simp_all [createDoctor, doctorCreate, hc]
    · simp only [DoctorPayloadComplete] at hinc
      cases o1 <;> cases o2 <;> cases o3 <;> cases o4 <;> cases o5 <;> cases o6 <;>
        simp_all [createDoctor, doctorCreate, hc]

/-- Witness for C4: a complete payload with `especialidad` "odontologia" is
rejected on the empty state. -/
theorem C4_invalid_doctor_payload_witness :
    (createDoctor initDB odontoPayload).1.status = 500 ∧
    (createDoctor initDB odontoPayload).1.body.error.isSome ∧
    (createDoctor initDB odontoPayload).2 = initDB :=
  C4_invalid_doctor_payload initDB odontoPayload
    (Or.inl ⟨"odontologia", rfl, by decide⟩)

/-! ### C7, C9, C10 -/

theorem find?_filter_not_self {α : Type} (l : List α) (p : α → Bool) :
    (l.filter (fun x => !(p x))).find? p = none := by
  rw [List.find?_eq_none]
  intro x hx
  have hmem := (List.mem_filter.mp hx).2
  simp only [Bool.not_eq_true'] at hmem
  simp [hmem]

/-- C7: after a successful (200) delete of a Doctor or of a Cita, repeating
the same delete replies 404 — not 500 — and leaves the state unchanged. -/
theorem C7_delete_idempotent (s : DB) (id prof pac fecha : Int) :
    ((deleteDoctor s id).1.status = 200 →
      deleteDoctor (deleteDoctor s id).2 id =
        (⟨404, ⟨"Doctor no existe", none, none⟩⟩, (deleteDoctor s id).2)) ∧
    ((deleteCita s prof pac fecha).1.status = 200 →
      deleteCita (deleteCita s prof pac fecha).2 prof pac fecha =
        (⟨404, ⟨"Cita no existe", none, none⟩⟩, (deleteCita s prof pac fecha).2)) := by
  constructor
  · intro h200
    cases hc : s.conn with
    | false => simp [deleteDoctor, doctorFindByPk, hc] at h200
    | true =>
      cases hfd : findDoctor s id with
      | none => simp [deleteDoctor, doctorFindByPk, hc, hfd] at h200
      | some d =>
        cases hany : s.citas.any (fun c => c.id_profesional == id) with
        | true =>
          simp [deleteDoctor, doctorFindByPk, doctorDestroy, hc, hfd, hany] at h200
        | false =>
          have hdel : deleteDoctor s id =
              (⟨200, ⟨"Doctor eliminado", none, none⟩⟩,
               ⟨true, s.doctores.filter (fun d => !(d.id_profesional == id)),
                s.pacientes, s.citas⟩) := by
            simp [deleteDoctor, doctorFindByPk, doctorDestroy, hc, hfd, hany]
          have hnone :
              findDoctor
                ⟨true, s.doctores.filter (fun d => !(d.id_profesional == id)),
                 s.pacientes, s.citas⟩ id = none :=
            find?_filter_not_self s.doctores (fun d => d.id_profesional == id)
          rw [hdel]
          simp [deleteDoctor, doctorFindByPk, hnone]
  · intro h200
    cases hc : s.conn with
    | false => simp [deleteCita, citaFindOne, hc] at h200
    | true =>
      cases hfd : findCita s fecha prof pac with
      | none => simp [deleteCita, citaFindOne, hc, hfd] at h200
      | some c =>
        have hdel : deleteCita s prof pac fecha =
            (⟨200, ⟨"Cita eliminada", none, none⟩⟩,
             ⟨true, s.doctores, s.pacientes,
              s.citas.filter (fun x => !(x.fecha_hora == fecha &&
                x.id_profesional == prof && x.id_numeroCedula == pac))⟩) := by
          simp [deleteCita, citaFindOne, citaDestroy, hc, hfd]
        have hnone :
            findCita
              ⟨true, s.doctores, s.pacientes,
               s.citas.filter (fun x => !(x.fecha_hora == fecha &&
                 x.id_profesional == prof && x.id_numeroCedula == pac))⟩
              fecha prof pac = none :=
          find?_filter_not_self s.citas
            (fun x => x.fecha_hora == fecha && x.id_profesional == prof &&
              x.id_numeroCedula == pac)
        rw [hdel]
        simp only [Bool.not_and, Bool.not_or] at hnone
        simp [deleteCita, citaFindOne, hnone]

/-- Witness for C7: doctor 1 deleted from a state without citas, and the
sample cita deleted, each followed by a second 404 delete. -/
theorem C7_delete_idempotent_witness :
    deleteDoctor (deleteDoctor dbDoctorPaciente 1).2 1 =
      (⟨404, ⟨"Doctor no existe", none, none⟩⟩, (deleteDoctor dbDoctorPaciente 1).2) ∧
    deleteCita (deleteCita dbWithCita 1 10 5).2 1 10 5 =
      (⟨404, ⟨"Cita no existe", none, none⟩⟩, (deleteCita dbWithCita 1 10 5).2) :=
  ⟨(C7_delete_idempotent dbDoctorPaciente 1 1 10 5).1 (by decide),
   (C7_delete_idempotent dbWithCita 1 1 10 5).2 (by decide)⟩

/-- C9: the update handlers apply the request body unrestricted, including
the primary-key fields: a body carrying a new key value makes the update
reply 200, after which a lookup by the original key replies 404, for all
three entities. -/
theorem C9_update_rewrites_key :
    (updateDoctor dbDoctorPaciente 1 pdNewId).1.status = 200 ∧
    (getDoctorById (updateDoctor dbDoctorPaciente 1 pdNewId).2 1).1 =
      ⟨404, ⟨"Doctor no encontrado", none, none⟩⟩ ∧
    (updatePaciente dbDoctorPaciente 10 ppNewId).1.status = 200 ∧
    (getPacienteById (updatePaciente dbDoctorPaciente 10 ppNewId).2 10).1 =
      ⟨404, ⟨"Paciente no encontrado", none, none⟩⟩ ∧
    (updateCita dbWithCita 1 10 5 pcNewFecha).1.status = 200 ∧
    (getOneCita (updateCita dbWithCita 1 10 5 pcNewFecha).2 1 10 5).1 =
      ⟨404, ⟨"Cita no encontrada", none, none⟩⟩ := by
  decide

/-- C10: when the storage layer raises an error in `updatePaciente` on an
existing key, the 500 envelope's `message` is the success-sounding string
"Paciente modificado". -/
theorem C10_updatePaciente_error_message (s : DB) (id : Int) (p : PacientePayload)
    (d : Paciente) (e : DBError)
    (hfound : pacienteFindByPk s id = .ok (some d))
    (herr : pacienteUpdate s id p = .error e) :
    updatePaciente s id p =
      (⟨500, ⟨"Paciente modificado", none, some e.message⟩⟩, s) := by
  simp [updatePaciente, hfound, herr]

/-- Witness for C10: moving patient 10's key onto the existing key 11 fails
with a uniqueness violation, and the 500 envelope says "Paciente
modificado". -/
theorem C10_updatePaciente_error_message_witness :
    updatePaciente dbTwoPacientes 10 ppTo11 =
      (⟨500, ⟨"Paciente modificado", none, some DBError.uniqueViolation.message⟩⟩,
       dbTwoPacientes) :=
  C10_updatePaciente_error_message dbTwoPacientes 10 ppTo11 luisPaciente
    .uniqueViolation rfl rfl

/-! ### C8 -/

/-- C8: every storage-layer failure — lost connectivity or a constraint
violation — is caught at the handler boundary and answered with an HTTP 500
JSON envelope whose `message` field is a string and whose `error` field
carries the underlying error's message (or stack, for the two create
handlers that attach `err.stack`); no handler propagates the failure, and
the failed request leaves the state unchanged. -/
theorem C8_storage_errors_become_500 :
    (∀ (s : DB) (id prof pac fecha : Int) (pD : DoctorPayload)
        (pP : PacientePayload) (pC : CitaPayload), s.conn = false →
      getDoctores s = (⟨500, ⟨"Error al obtener los doctores", none,
        some DBError.connect.message⟩⟩, s) ∧
      getDoctorById s id = (⟨500, ⟨"Error al obtener los doctores", none,
        some DBError.connect.message⟩⟩, s) ∧
      createDoctor s pD = (⟨500, ⟨"No se pudo crear el doctor", none,
        some DBError.connect.stack⟩⟩, s) ∧
      updateDoctor s id pD = (⟨500, ⟨"Error al modificar el doctor", none,
        some DBError.connect.message⟩⟩, s) ∧
      deleteDoctor s id = (⟨500, ⟨"Error al eliminar el doctor", none,
        some DBError.connect.message⟩⟩, s) ∧
      getPacientes s = (⟨500, ⟨"Error al obtener los pacientes", none,
        some DBError.connect.message⟩⟩, s) ∧
      getPacienteById s id = (⟨500, ⟨"Error al obtener los pacientes", none,
        some DBError.connect.message⟩⟩, s) ∧
      createPaciente s pP = (⟨500, ⟨"No se pudo crear el paciente", none,
        some DBError.connect.stack⟩⟩, s) ∧
      updatePaciente s id pP = (⟨500, ⟨"Paciente modificado", none,
        some DBError.connect.message⟩⟩, s) ∧
      deletePaciente s id = (⟨500, ⟨"Error al eliminar el paciente", none,
        some DBError.connect.message⟩⟩, s) ∧
      getCitas s = (⟨500, ⟨"Error al obtener las citas", none,
        some DBError.connect.message⟩⟩, s) ∧
      getOneCita s prof pac fecha = (⟨500, ⟨"Error al obtener los doctores", none,
        some DBError.connect.message⟩⟩, s) ∧
      createCita s pC = (⟨500, ⟨"No se pudo crear la cita", none,
        some DBError.connect.message⟩⟩, s) ∧
      updateCita s prof pac fecha pC = (⟨500, ⟨"Error al modificar la cita", none,
        some DBError.connect.message⟩⟩, s) ∧
      deleteCita s prof pac fecha = (⟨500, ⟨"Error al eliminar la cita", none,
        some DBError.connect.message⟩⟩, s)) ∧
    (∀ (s : DB) (p : DoctorPayload) (e : DBError), doctorCreate s p = .error e →
      createDoctor s p =
        (⟨500, ⟨"No se pudo crear el doctor", none, some e.stack⟩⟩, s)) ∧
    (∀ (s : DB) (p : PacientePayload) (e : DBError), pacienteCreate s p = .error e →
      createPaciente s p =
        (⟨500, ⟨"No se pudo crear el paciente", none, some e.stack⟩⟩, s)) ∧
    (∀ (s : DB) (p : CitaPayload) (e : DBError), citaCreate s p = .error e →
      createCita s p =
        (⟨500, ⟨"No se pudo crear la cita", none, some e.message⟩⟩, s)) ∧
    (∀ (s : DB) (id : Int) (p : DoctorPayload) (d : Doctor) (e : DBError),
      doctorFindByPk s id = .ok (some d) → doctorUpdate s id p = .error e →
      updateDoctor s id p =
        (⟨500, ⟨"Error al modificar el doctor", none, some e.message⟩⟩, s)) ∧
    (∀ (s : DB) (id : Int) (p : PacientePayload) (d : Paciente) (e : DBError),
      pacienteFindByPk s id = .ok (some d) → pacienteUpdate s id p = .error e →
      updatePaciente s id p =
        (⟨500, ⟨"Paciente modificado", none, some e.message⟩⟩, s)) ∧
    (∀ (s : DB) (prof pac fecha : Int) (p : CitaPayload) (c : Cita) (e : DBError),
      citaFindOne s fecha prof pac = .ok (some c) →
      citaUpdate s fecha prof pac p = .error e →
      updateCita s prof pac fecha p =
        (⟨500, ⟨"Error al modificar la cita", none, some e.message⟩⟩, s)) ∧
    (∀ (s : DB) (id : Int) (d : Doctor) (e : DBError),
      doctorFindByPk s id = .ok (some d) → doctorDestroy s id = .error e →
      deleteDoctor s id =
        (⟨500, ⟨"Error al eliminar el doctor", none, some e.message⟩⟩, s)) ∧
    (∀ (s : DB) (id : Int) (d : Paciente) (e : DBError),
      pacienteFindByPk s id = .ok (some d) → pacienteDestroy s id = .error e →
      deletePaciente s id =
        (⟨500, ⟨"Error al eliminar el paciente", none, some e.message⟩⟩, s)) ∧
    (∀ (s : DB) (prof pac fecha : Int) (c : Cita) (e : DBError),
      citaFindOne s fecha prof pac = .ok (some c) →
      citaDestroy s fecha prof pac = .error e →
      deleteCita s prof pac fecha =
        (⟨500, ⟨"Error al eliminar la cita", none, some e.message⟩⟩, s)) := by
  refine ⟨?_, ?_, ?_, ?_, ?_, ?_, ?_, ?_, ?_, ?_⟩
  · intro s id prof pac fecha pD pP pC hdown
    refine ⟨?_, ?_, ?_, ?_, ?_, ?_, ?_, ?_, ?_, ?_, ?_, ?_, ?_, ?_, ?_⟩ <;>
      simp [getDoctores, getDoctorById, createDoctor, updateDoctor, deleteDoctor,
        getPacientes, getPacienteById, createPaciente, updatePaciente, deletePaciente,
        getCitas, getOneCita, createCita, updateCita, deleteCita,
        doctorFindAll, doctorFindByPk, doctorCreate,
        pacienteFindAll, pacienteFindByPk, pacienteCreate,
        citaFindAll, citaFindOne, citaCreate, hdown]
  · intro s p e h; simp [createDoctor, h]
  · intro s p e h; simp [createPaciente, h]
  · intro s p e h; simp [createCita, h]
  · intro s id p d e h1 h2; simp [updateDoctor, h1, h2]
  · intro s id p d e h1 h2; simp [updatePaciente, h1, h2]
  · intro s prof pac fecha p c e h1 h2; simp [updateCita, h1, h2]
  · intro s id d e h1 h2; simp [deleteDoctor, h1, h2]
  · intro s id d e h1 h2; simp [deletePaciente, h1, h2]
  · intro s prof pac fecha c e h1 h2; simp [deleteCita, h1, h2]

/-- Witness for C8: a read against an unreachable store, and a create whose
foreign key is broken, both answered 500 with the error attached. -/
theorem C8_storage_errors_become_500_witness :
    getDoctores dbDown = (⟨500, ⟨"Error al obtener los doctores", none,
      some DBError.connect.message⟩⟩, dbDown) ∧
    createCita initDB citaPayload5 = (⟨500, ⟨"No se pudo crear la cita", none,
      some DBError.foreignKeyViolation.message⟩⟩, initDB) :=
  ⟨(C8_storage_errors_become_500.1 dbDown 0 0 0 0 anaPayload ppNewId citaPayload5 rfl).1,
   C8_storage_errors_become_500.2.2.2.1 initDB citaPayload5 .foreignKeyViolation rfl⟩

/-! ### Generic key-uniqueness lemmas over lists -/

theorem pairwise_key_append_fresh {α κ : Type} (key : α → κ) (l : List α) (d : α)
    (hp : l.Pairwise fun a b => key a ≠ key b)
    (hfresh : ∀ y ∈ l, key y ≠ key d) :
    (l ++ [d]).Pairwise fun a b => key a ≠ key b := by
  rw [List.pairwise_append]
  refine ⟨hp, List.pairwise_singleton _ _, ?_⟩
  intro a ha b hb
  simp only [List.mem_singleton] at hb
  subst hb
  exact hfresh a ha

theorem pairwise_key_map_update {α κ : Type} (key : α → κ) (q : α → Bool) (k : κ)
    (d' : α) (l : List α)
    (hq : ∀ x, q x = true → key x = k)
    (hp : l.Pairwise fun a b => key a ≠ key b)
    (hcase : key d' = k ∨ ∀ y ∈ l, key y ≠ key d') :
    (l.map fun x => if q x then d' else x).Pairwise fun a b => key a ≠ key b := by
  rw [List.pairwise_map]
  refine List.Pairwise.imp_of_mem ?_ hp
  intro a b ha hb hab
  cases hqa : q a with
  | true =>
    cases hqb : q b with
    | true => exact absurd ((hq a hqa).trans (hq b hqb).symm) hab
    | false =>
      simp only [hqa, hqb, if_true, Bool.false_eq_true, if_false]
      rcases hcase with hsame | hfresh
      · rw [hsame, ← hq a hqa]; exact hab
      · exact fun hcontra => hfresh b hb hcontra.symm
  | false =>
    cases hqb : q b with
    | true =>
      simp only [hqa, hqb, if_true, Bool.false_eq_true, if_false]
      rcases hcase with hsame | hfresh
      · rw [hsame, ← hq b hqb]; exact hab
      · exact hfresh a ha
    | false =>
      simp only [hqa, hqb, Bool.false_eq_true, if_false]
      exact hab

theorem exists_key_append {α κ : Type} (key : α → κ) (l : List α) (d : α) (t : κ)
    (hx : ∃ x ∈ l, key x = t) : ∃ x ∈ l ++ [d], key x = t := by
  obtain ⟨x, hxl, hxt⟩ := hx
  exact ⟨x, List.mem_append_left _ hxl, hxt⟩

theorem exists_key_map_update {α κ : Type} (key : α → κ) (q : α → Bool) (k : κ)
    (d' : α) (l : List α) (t : κ)
    (hq : ∀ x, q x = true → key x = k)
    (hcase : key d' = k ∨ t ≠ k)
    (hx : ∃ x ∈ l, key x = t) :
    ∃ x ∈ l.map (fun x => if q x then d' else x), key x = t := by
  obtain ⟨x, hxl, hxt⟩ := hx
  refine ⟨if q x then d' else x, List.mem_map_of_mem _ hxl, ?_⟩
  cases hqx : q x with
  | true =>
    simp only [hqx, if_true]
    rcases hcase with hsame | hne
    · rw [hsame, ← hq x hqx]; exact hxt
    · exact absurd ((hq x hqx).symm.trans hxt).symm hne
  | false =>
    simpa [hqx] using hxt

theorem exists_key_filter {α κ : Type} (key : α → κ) (q : α → Bool) (l : List α) (t : κ)
    (hkeep : ∀ x ∈ l, key x = t → q x = true)
    (hx : ∃ x ∈ l, key x = t) : ∃ x ∈ l.filter q, key x = t := by
  obtain ⟨x, hxl, hxt⟩ := hx
  exact ⟨x, List.mem_filter.mpr ⟨hxl, hkeep x hxl hxt⟩, hxt⟩

/-! ### Inversion of the storage operations' success cases -/

theorem doctorCreate_ok {s : DB} {p : DoctorPayload} {d : Doctor} {s' : DB}
    (h : doctorCreate s p = .ok (d, s')) :
    s' = { s with doctores := s.doctores ++ [d] } ∧
    findDoctor s d.id_profesional = none := by
  unfold doctorCreate at h
  split at h
  · exact absurd h (by simp)
  · split at h
    · next id no ap co te es _ _ _ _ _ _ =>
      split at h
      · split at h
        · exact absurd h (by simp)
        · next hfresh =>
          simp only [Except.ok.injEq, Prod.mk.injEq] at h
          obtain ⟨hd, hs⟩ := h
          subst hd
          refine ⟨hs.symm, ?_⟩
          simpa [Option.not_isSome_iff_eq_none] using hfresh
      · exact absurd h (by simp)
    · exact absurd h (by simp)

theorem pacienteCreate_ok {s : DB} {p : PacientePayload} {d : Paciente} {s' : DB}
    (h : pacienteCreate s p = .ok (d, s')) :
    s' = { s with pacientes := s.pacientes ++ [d] } ∧
    findPaciente s d.id_numeroCedula = none := by
  unfold pacienteCreate at h
  split at h
  · exact absurd h (by simp)
  · split at h
    · next id no ap fe te _ _ _ _ _ =>
      split at h
      · exact absurd h (by simp)
      · next hfresh =>
        simp only [Except.ok.injEq, Prod.mk.injEq] at h
        obtain ⟨hd, hs⟩ := h
        subst hd
        refine ⟨hs.symm, ?_⟩
        simpa [Option.not_isSome_iff_eq_none] using hfresh
    · exact absurd h (by simp)

theorem citaCreate_ok {s : DB} {p : CitaPayload} {c : Cita} {s' : DB}
    (h : citaCreate s p = .ok (c, s')) :
    s' = { s with citas := s.citas ++ [c] } ∧
    (findDoctor s c.id_profesional).isSome ∧
    (findPaciente s c.id_numeroCedula).isSome ∧
    findCita s c.fecha_hora c.id_profesional c.id_numeroCedula = none := by
  unfold citaCreate at h
  split at h
  · exact absurd h (by simp)
  · split at h
    · next fe pr pa _ _ _ =>
      split at h
      · exact absurd h (by simp)
      · next hdoc =>
        split at h
        · exact absurd h (by simp)
        · next hpac =>
          split at h
          · exact absurd h (by simp)
          · next hdup =>
            simp only [Except.ok.injEq, Prod.mk.injEq] at h
            obtain ⟨hc, hs⟩ := h
            subst hc
            refine ⟨hs.symm, ?_, ?_, ?_⟩
            · rw [← Option.ne_none_iff_isSome]; simpa using hdoc
            · rw [← Option.ne_none_iff_isSome]; simpa using hpac
            · simpa [Option.not_isSome_iff_eq_none] using hdup
    · exact absurd h (by simp)

theorem doctorDestroy_ok {s : DB} {id : Int} {s' : DB}
    (h : doctorDestroy s id = .ok s') :
    s' = { s with doctores := s.doctores.filter (fun d => !(d.id_profesional == id)) } ∧
    s.citas.any (fun c => c.id_profesional == id) = false := by
  unfold doctorDestroy at h
  split at h
  · exact absurd h (by simp)
  · split at h
    · exact absurd h (by simp)
    · next hany =>
      simp only [Except.ok.injEq] at h
      exact ⟨h.symm, by simpa using hany⟩

theorem pacienteDestroy_ok {s : DB} {id : Int} {s' : DB}
    (h : pacienteDestroy s id = .ok s') :
    s' = { s with pacientes := s.pacientes.filter (fun d => !(d.id_numeroCedula == id)) } ∧
    s.citas.any (fun c => c.id_numeroCedula == id) = false := by
  unfold pacienteDestroy at h
  split at h
  · exact absurd h (by simp)
  · split at h
    · exact absurd h (by simp)
    · next hany =>
      simp only [Except.ok.injEq] at h
      exact ⟨h.symm, by simpa using hany⟩

theorem citaDestroy_ok {s : DB} {fecha prof pac : Int} {s' : DB}
    (h : citaDestroy s fecha prof pac = .ok s') :
    s' = { s with citas := (s.citas.filter
      (fun c => !(c.fecha_hora == fecha && c.id_profesional == prof &&
                  c.id_numeroCedula == pac))) } := by
  unfold citaDestroy at h
  split at h
  · exact absurd h (by simp)
  · simp only [Except.ok.injEq] at h
    exact h.symm

theorem doctorUpdate_ok {s : DB} {id : Int} {p : DoctorPayload} {s' : DB}
    (h : doctorUpdate s id p = .ok s') :
    s' = s ∨ ∃ d, findDoctor s id = some d ∧
      s' = { s with doctores := (s.doctores.map
        (fun x => if x.id_profesional == id then applyDoctorUpdate d p else x)) } ∧
      ((applyDoctorUpdate d p).id_profesional = d.id_profesional ∨
        (findDoctor s (applyDoctorUpdate d p).id_profesional = none ∧
         s.citas.any (fun c => c.id_profesional == d.id_profesional) = false)) := by
  unfold doctorUpdate at h
  split at h
  · exact absurd h (by simp)
  · split at h
    · simp only [Except.ok.injEq] at h
      exact Or.inl h.symm
    · next d hfind =>
      split at h
      · split at h
        · exact absurd h (by simp)
        · next hnu =>
          split at h
          · exact absurd h (by simp)
          · next hnf =>
            simp only [Except.ok.injEq] at h
            refine Or.inr ⟨d, hfind, h.symm, ?_⟩
            by_cases hk : (applyDoctorUpdate d p).id_profesional = d.id_profesional
            · exact Or.inl hk
            · refine Or.inr ⟨?_, ?_⟩
              · exact Option.not_isSome_iff_eq_none.mp (fun hs => hnu ⟨hk, hs⟩)
              · cases hany : s.citas.any (fun c => c.id_profesional == d.id_profesional)
                · rfl
                · exact absurd ⟨hk, hany⟩ hnf
      · exact absurd h (by simp)

theorem pacienteUpdate_ok {s : DB} {id : Int} {p : PacientePayload} {s' : DB}
    (h : pacienteUpdate s id p = .ok s') :
    s' = s ∨ ∃ d, findPaciente s id = some d ∧
      s' = { s with pacientes := (s.pacientes.map
        (fun x => if x.id_numeroCedula == id then applyPacienteUpdate d p else x)) } ∧
      ((applyPacienteUpdate d p).id_numeroCedula = d.id_numeroCedula ∨
        (findPaciente s (applyPacienteUpdate d p).id_numeroCedula = none ∧
         s.citas.any (fun c => c.id_numeroCedula == d.id_numeroCedula) = false)) := by
  unfold pacienteUpdate at h
  split at h
  · exact absurd h (by simp)
  · split at h
    · simp only [Except.ok.injEq] at h
      exact Or.inl h.symm
    · next d hfind =>
      split at h
      · exact absurd h (by simp)
      · next hnu =>
        split at h
        · exact absurd h (by simp)
        · next hnf =>
          simp only [Except.ok.injEq] at h
          refine Or.inr ⟨d, hfind, h.symm, ?_⟩
          by_cases hk : (applyPacienteUpdate d p).id_numeroCedula = d.id_numeroCedula
          · exact Or.inl hk
          · refine Or.inr ⟨?_, ?_⟩
            · exact Option.not_isSome_iff_eq_none.mp (fun hs => hnu ⟨hk, hs⟩)
            · cases hany : s.citas.any (fun c => c.id_numeroCedula == d.id_numeroCedula)
              · rfl
              · exact absurd ⟨hk, hany⟩ hnf

theorem citaUpdate_ok {s : DB} {fecha prof pac : Int} {p : CitaPayload} {s' : DB}
    (h : citaUpdate s fecha prof pac p = .ok s') :
    s' = s ∨ ∃ c, findCita s fecha prof pac = some c ∧
      (findDoctor s (applyCitaUpdate c p).id_profesional).isSome ∧
      (findPaciente s (applyCitaUpdate c p).id_numeroCedula).isSome ∧
      s' = { s with citas := (s.citas.map
        (fun x => if x.fecha_hora == fecha && x.id_profesional == prof &&
            x.id_numeroCedula == pac then applyCitaUpdate c p else x)) } ∧
      (((applyCitaUpdate c p).fecha_hora, (applyCitaUpdate c p).id_profesional,
          (applyCitaUpdate c p).id_numeroCedula) = (fecha, prof, pac) ∨
        findCita s (applyCitaUpdate c p).fecha_hora (applyCitaUpdate c p).id_profesional
          (applyCitaUpdate c p).id_numeroCedula = none) := by
  unfold citaUpdate at h
  split at h
  · exact absurd h (by simp)
  · split at h
    · simp only [Except.ok.injEq] at h
      exact Or.inl h.symm
    · next c hfind =>
      split at h
      · exact absurd h (by simp)
      · next hdoc =>
        split at h
        · exact absurd h (by simp)
        · next hpac =>
          split at h
          · exact absurd h (by simp)
          · next hnu =>
            simp only [Except.ok.injEq] at h
            refine Or.inr ⟨c, hfind, ?_, ?_, h.symm, ?_⟩
            · rw [← Option.ne_none_iff_isSome]; simpa using hdoc
            · rw [← Option.ne_none_iff_isSome]; simpa using hpac
            · by_cases hk : ((applyCitaUpdate c p).fecha_hora,
                  (applyCitaUpdate c p).id_profesional,
                  (applyCitaUpdate c p).id_numeroCedula) = (fecha, prof, pac)
              · exact Or.inl hk
              · exact Or.inr (Option.not_isSome_iff_eq_none.mp (fun hs => hnu ⟨hk, hs⟩))

/-! ### Preservation of well-formedness by each storage operation -/

theorem WF_doctorCreate {s : DB} {p : DoctorPayload} {d : Doctor} {s' : DB}
    (hwf : WF s) (h : doctorCreate s p = .ok (d, s')) : WF s' := by
  obtain ⟨hs, hfresh⟩ := doctorCreate_ok h
  subst hs
  obtain ⟨hD, hP, hC, hR⟩ := hwf
  rw [findDoctor_eq_none_iff] at hfresh
  refine ⟨?_, hP, hC, ?_⟩
  · unfold DoctoresWF at hD ⊢
    exact pairwise_key_append_fresh (fun x => x.id_profesional) s.doctores d hD hfresh
  · intro c hc
    have hold := hR c hc
    refine ⟨?_, hold.2⟩
    rw [findDoctor_isSome_iff]
    exact exists_key_append (fun x => x.id_profesional) s.doctores d c.id_profesional
      ((findDoctor_isSome_iff s _).mp hold.1)

theorem WF_pacienteCreate {s : DB} {p : PacientePayload} {d : Paciente} {s' : DB}
    (hwf : WF s) (h : pacienteCreate s p = .ok (d, s')) : WF s' := by
  obtain ⟨hs, hfresh⟩ := pacienteCreate_ok h
  subst hs
  obtain ⟨hD, hP, hC, hR⟩ := hwf
  rw [findPaciente_eq_none_iff] at hfresh
  refine ⟨hD, ?_, hC, ?_⟩
  · unfold PacientesWF at hP ⊢
    exact pairwise_key_append_fresh (fun x => x.id_numeroCedula) s.pacientes d hP hfresh
  · intro c hc
    have hold := hR c hc
    refine ⟨hold.1, ?_⟩
    rw [findPaciente_isSome_iff]
    exact exists_key_append (fun x => x.id_numeroCedula) s.pacientes d c.id_numeroCedula
      ((findPaciente_isSome_iff s _).mp hold.2)

theorem WF_citaCreate {s : DB} {p : CitaPayload} {c : Cita} {s' : DB}
    (hwf : WF s) (h : citaCreate s p = .ok (c, s')) : WF s' := by
  obtain ⟨hs, hdoc, hpac, hfresh⟩ := citaCreate_ok h
  subst hs
  obtain ⟨hD, hP, hC, hR⟩ := hwf
  refine ⟨hD, hP, ?_, ?_⟩
  · unfold CitasWF at hC ⊢
    refine pairwise_key_append_fresh citaKey s.citas c hC ?_
    rw [findCita_eq_none_iff] at hfresh
    intro y hy hkeq
    simp only [citaKey, Prod.mk.injEq] at hkeq
    exact hfresh y hy ⟨hkeq.1, hkeq.2.1, hkeq.2.2⟩
  · intro x hx
    rcases List.mem_append.mp hx with hxl | hxc
    · exact hR x hxl
    · simp only [List.mem_singleton] at hxc
      subst hxc
      exact ⟨hdoc, hpac⟩

theorem WF_doctorDestroy {s : DB} {id : Int} {s' : DB}
    (hwf : WF s) (h : doctorDestroy s id = .ok s') : WF s' := by
  obtain ⟨hs, hany⟩ := doctorDestroy_ok h
  subst hs
  obtain ⟨hD, hP, hC, hR⟩ := hwf
  simp only [List.any_eq_false] at hany
  refine ⟨?_, hP, hC, ?_⟩
  · unfold DoctoresWF at hD ⊢
    exact List.Pairwise.sublist (List.filter_sublist _) hD
  · intro c hc
    have hold := hR c hc
    have hcne : c.id_profesional ≠ id := by simpa using hany c hc
    refine ⟨?_, hold.2⟩
    rw [findDoctor_isSome_iff]
    refine exists_key_filter (fun x => x.id_profesional) _ s.doctores c.id_profesional
      ?_ ((findDoctor_isSome_iff s _).mp hold.1)
    intro x hxl hxk
    simp [hxk, hcne]

theorem WF_pacienteDestroy {s : DB} {id : Int} {s' : DB}
    (hwf : WF s) (h : pacienteDestroy s id = .ok s') : WF s' := by
  obtain ⟨hs, hany⟩ := pacienteDestroy_ok h
  subst hs
  obtain ⟨hD, hP, hC, hR⟩ := hwf
  simp only [List.any_eq_false] at hany
  refine ⟨hD, ?_, hC, ?_⟩
  · unfold PacientesWF at hP ⊢
    exact List.Pairwise.sublist (List.filter_sublist _) hP
  · intro c hc
    have hold := hR c hc
    have hcne : c.id_numeroCedula ≠ id := by simpa using hany c hc
    refine ⟨hold.1, ?_⟩
    rw [findPaciente_isSome_iff]
    refine exists_key_filter (fun x => x.id_numeroCedula) _ s.pacientes c.id_numeroCedula
      ?_ ((findPaciente_isSome_iff s _).mp hold.2)
    intro x hxl hxk
    simp [hxk, hcne]

theorem WF_citaDestroy {s : DB} {fecha prof pac : Int} {s' : DB}
    (hwf : WF s) (h : citaDestroy s fecha prof pac = .ok s') : WF s' := by
  have hs := citaDestroy_ok h
  subst hs
  obtain ⟨hD, hP, hC, hR⟩ := hwf
  refine ⟨hD, hP, ?_, ?_⟩
  · unfold CitasWF at hC ⊢
    exact List.Pairwise.sublist (List.filter_sublist _) hC
  · intro c hc
    exact hR c (List.mem_filter.mp hc).1

theorem WF_doctorUpdate {s : DB} {id : Int} {p : DoctorPayload} {s' : DB}
    (hwf : WF s) (h : doctorUpdate s id p = .ok s') : WF s' := by
  rcases doctorUpdate_ok h with hs | ⟨d, hfind, hs, hcase⟩
  · subst hs; exact hwf
  · subst hs
    obtain ⟨hD, hP, hC, hR⟩ := hwf
    have hdid : d.id_profesional = id := by
      simpa using List.find?_some hfind
    have hq : ∀ x : Doctor, (x.id_profesional == id) = true → x.id_profesional = id := by
      intro x hx
      simpa using hx
    have hcase' : (applyDoctorUpdate d p).id_profesional = id ∨
        ∀ y ∈ s.doctores, y.id_profesional ≠ (applyDoctorUpdate d p).id_profesional := by
      rcases hcase with hsame | ⟨hnone, _⟩
      · exact Or.inl (hsame.trans hdid)
      · exact Or.inr ((findDoctor_eq_none_iff s _).mp hnone)
    refine ⟨?_, hP, hC, ?_⟩
    · unfold DoctoresWF at hD ⊢
      exact pairwise_key_map_update (fun x => x.id_profesional)
        (fun x => x.id_profesional == id) id (applyDoctorUpdate d p) s.doctores hq hD hcase'
    · intro c hc
      have hold := hR c hc
      refine ⟨?_, hold.2⟩
      rw [findDoctor_isSome_iff]
      refine exists_key_map_update (fun x => x.id_profesional)
        (fun x => x.id_profesional == id) id (applyDoctorUpdate d p) s.doctores
        c.id_profesional hq ?_ ((findDoctor_isSome_iff s _).mp hold.1)
      rcases hcase with hsame | ⟨_, hnoref⟩
      · exact Or.inl (hsame.trans hdid)
      · refine Or.inr ?_
        simp only [List.any_eq_false] at hnoref
        have := hnoref c hc
        rw [hdid] at this
        simpa using this

theorem WF_pacienteUpdate {s : DB} {id : Int} {p : PacientePayload} {s' : DB}
    (hwf : WF s) (h : pacienteUpdate s id p = .ok s') : WF s' := by
  rcases pacienteUpdate_ok h with hs | ⟨d, hfind, hs, hcase⟩
  · subst hs; exact hwf
  · subst hs
    obtain ⟨hD, hP, hC, hR⟩ := hwf
    have hdid : d.id_numeroCedula = id := by
      simpa using List.find?_some hfind
    have hq : ∀ x : Paciente, (x.id_numeroCedula == id) = true → x.id_numeroCedula = id := by
      intro x hx
      simpa using hx
    have hcase' : (applyPacienteUpdate d p).id_numeroCedula = id ∨
        ∀ y ∈ s.pacientes, y.id_numeroCedula ≠ (applyPacienteUpdate d p).id_numeroCedula := by
      rcases hcase with hsame | ⟨hnone, _⟩
      · exact Or.inl (hsame.trans hdid)
      · exact Or.inr ((findPaciente_eq_none_iff s _).mp hnone)
    refine ⟨hD, ?_, hC, ?_⟩
    · unfold PacientesWF at hP ⊢
      exact pairwise_key_map_update (fun x => x.id_numeroCedula)
        (fun x => x.id_numeroCedula == id) id (applyPacienteUpdate d p) s.pacientes hq hP hcase'
    · intro c hc
      have hold := hR c hc
      refine ⟨hold.1, ?_⟩
      rw [findPaciente_isSome_iff]
      refine exists_key_map_update (fun x => x.id_numeroCedula)
        (fun x => x.id_numeroCedula == id) id (applyPacienteUpdate d p) s.pacientes
        c.id_numeroCedula hq ?_ ((findPaciente_isSome_iff s _).mp hold.2)
      rcases hcase with hsame | ⟨_, hnoref⟩
      · exact Or.inl (hsame.trans hdid)
      · refine Or.inr ?_
        simp only [List.any_eq_false] at hnoref
        have := hnoref c hc
        rw [hdid] at this
        simpa using this

theorem WF_citaUpdate {s : DB} {fecha prof pac : Int} {p : CitaPayload} {s' : DB}
    (hwf : WF s) (h : citaUpdate s fecha prof pac p = .ok s') : WF s' := by
  rcases citaUpdate_ok h with hs | ⟨c, hfind, hdoc, hpac, hs, hcase⟩
  · subst hs; exact hwf
  · subst hs
    obtain ⟨hD, hP, hC, hR⟩ := hwf
    have hq : ∀ x : Cita, (x.fecha_hora == fecha && x.id_profesional == prof &&
        x.id_numeroCedula == pac) = true → citaKey x = (fecha, prof, pac) := by
      intro x hx
      simp only [Bool.and_eq_true, beq_iff_eq] at hx
      simp [citaKey, hx.1.1, hx.1.2, hx.2]
    have hcase' : citaKey (applyCitaUpdate c p) = (fecha, prof, pac) ∨
        ∀ y ∈ s.citas, citaKey y ≠ citaKey (applyCitaUpdate c p) := by
      rcases hcase with hsame | hnone
      · exact Or.inl hsame
      · refine Or.inr ?_
        intro y hy hkeq
        have := (findCita_eq_none_iff s _ _ _).mp hnone y hy
        simp only [citaKey, Prod.mk.injEq] at hkeq
        exact this ⟨hkeq.1, hkeq.2.1, hkeq.2.2⟩
    refine ⟨hD, hP, ?_, ?_⟩
    · unfold CitasWF at hC ⊢
      exact pairwise_key_map_update citaKey
        (fun x => x.fecha_hora == fecha && x.id_profesional == prof &&
          x.id_numeroCedula == pac) (fecha, prof, pac) (applyCitaUpdate c p) s.citas
        hq hC hcase'
    · intro x hx
      obtain ⟨y, hyl, hfy⟩ := List.mem_map.mp hx
      cases hqy : (y.fecha_hora == fecha && y.id_profesional == prof &&
          y.id_numeroCedula == pac) with
      | true =>
        simp only [hqy, if_true] at hfy
        subst hfy
        exact ⟨hdoc, hpac⟩
      | false =>
        simp only [hqy, Bool.false_eq_true, if_false] at hfy
        subst hfy
        exact hR y hyl

/-! ### Preservation of well-formedness by every handler -/

theorem getDoctores_state (s : DB) : (getDoctores s).2 = s := by
  unfold getDoctores
  cases doctorFindAll s with
  | error e => rfl
  | ok o => rfl

theorem getDoctorById_state (s : DB) (id : Int) : (getDoctorById s id).2 = s := by
  unfold getDoctorById
  cases doctorFindByPk s id with
  | error e => rfl
  | ok o => cases o <;> rfl

theorem getPacientes_state (s : DB) : (getPacientes s).2 = s := by
  unfold getPacientes
  cases pacienteFindAll s with
  | error e => rfl
  | ok o => rfl

theorem getPacienteById_state (s : DB) (id : Int) : (getPacienteById s id).2 = s := by
  unfold getPacienteById
  cases pacienteFindByPk s id with
  | error e => rfl
  | ok o => cases o <;> rfl

theorem getCitas_state (s : DB) : (getCitas s).2 = s := by
  unfold getCitas
  cases citaFindAll s with
  | error e => rfl
  | ok o => rfl

theorem getOneCita_state (s : DB) (prof pac fecha : Int) :
    (getOneCita s prof pac fecha).2 = s := by
  unfold getOneCita
  cases citaFindOne s fecha prof pac with
  | error e => rfl
  | ok o => cases o <;> rfl

theorem WF_createDoctor_handler (s : DB) (p : DoctorPayload) (hwf : WF s) :
    WF (createDoctor s p).2 := by
  unfold createDoctor
  cases h : doctorCreate s p with
  | error e => exact hwf
  | ok r =>
    obtain ⟨d, s'⟩ := r
    exact WF_doctorCreate hwf h

theorem WF_updateDoctor_handler (s : DB) (id : Int) (p : DoctorPayload) (hwf : WF s) :
    WF (updateDoctor s id p).2 := by
  unfold updateDoctor
  cases h1 : doctorFindByPk s id with
  | error e => exact hwf
  | ok o =>
    cases o with
    | none => exact hwf
    | some d =>
      cases h2 : doctorUpdate s id p with
      | error e => exact hwf
      | ok s' => exact WF_doctorUpdate hwf h2

theorem WF_deleteDoctor_handler (s : DB) (id : Int) (hwf : WF s) :
    WF (deleteDoctor s id).2 := by
  unfold deleteDoctor
  cases h1 : doctorFindByPk s id with
  | error e => exact hwf
  | ok o =>
    cases o with
    | none => exact hwf
    | some d =>
      cases h2 : doctorDestroy s id with
      | error e => exact hwf
      | ok s' => exact WF_doctorDestroy hwf h2

theorem WF_createPaciente_handler (s : DB) (p : PacientePayload) (hwf : WF s) :
    WF (createPaciente s p).2 := by
  unfold createPaciente
  cases h : pacienteCreate s p with
  | error e => exact hwf
  | ok r =>
    obtain ⟨d, s'⟩ := r
    exact WF_pacienteCreate hwf h

theorem WF_updatePaciente_handler (s : DB) (id : Int) (p : PacientePayload) (hwf : WF s) :
    WF (updatePaciente s id p).2 := by
  unfold updatePaciente
  cases h1 : pacienteFindByPk s id with
  | error e => exact hwf
  | ok o =>
    cases o with
    | none => exact hwf
    | some d =>
      cases h2 : pacienteUpdate s id p with
      | error e => exact hwf
      | ok s' => exact WF_pacienteUpdate hwf h2

theorem WF_deletePaciente_handler (s : DB) (id : Int) (hwf : WF s) :
    WF (deletePaciente s id).2 := by
  unfold deletePaciente
  cases h1 : pacienteFindByPk s id with
  | error e => exact hwf
  | ok o =>
    cases o with
    | none => exact hwf
    | some d =>
      cases h2 : pacienteDestroy s id with
      | error e => exact hwf
      | ok s' => exact WF_pacienteDestroy hwf h2

theorem WF_createCita_handler (s : DB) (p : CitaPayload) (hwf : WF s) :
    WF (createCita s p).2 := by
  unfold createCita
  cases h : citaCreate s p with
  | error e => exact hwf
  | ok r =>
    obtain ⟨c, s'⟩ := r
    exact WF_citaCreate hwf h

theorem WF_updateCita_handler (s : DB) (prof pac fecha : Int) (p : CitaPayload)
    (hwf : WF s) : WF (updateCita s prof pac fecha p).2 := by
  unfold updateCita
  cases h1 : citaFindOne s fecha prof pac with
  | error e => exact hwf
  | ok o =>
    cases o with
    | none => exact hwf
    | some c =>
      cases h2 : citaUpdate s fecha prof pac p with
      | error e => exact hwf
      | ok s' => exact WF_citaUpdate hwf h2

theorem WF_deleteCita_handler (s : DB) (prof pac fecha : Int) (hwf : WF s) :
    WF (deleteCita s prof pac fecha).2 := by
  unfold deleteCita
  cases h1 : citaFindOne s fecha prof pac with
  | error e => exact hwf
  | ok o =>
    cases o with
    | none => exact hwf
    | some c =>
      cases h2 : citaDestroy s fecha prof pac with
      | error e => exact hwf
      | ok s' => exact WF_citaDestroy hwf h2

/-- Every observable transition preserves well-formedness. -/
theorem WF_step {s s' : DB} (hwf : WF s) (h : Step s s') : WF s' := by
  cases h with
  | setConn b =>
    obtain ⟨hD, hP, hC, hR⟩ := hwf
    exact ⟨hD, hP, hC, hR⟩
  | getDoctores => rw [getDoctores_state]; exact hwf
  | getDoctorById id => rw [getDoctorById_state]; exact hwf
  | createDoctor p => exact WF_createDoctor_handler s p hwf
  | updateDoctor id p => exact WF_updateDoctor_handler s id p hwf
  | deleteDoctor id => exact WF_deleteDoctor_handler s id hwf
  | getPacientes => rw [getPacientes_state]; exact hwf
  | getPacienteById id => rw [getPacienteById_state]; exact hwf
  | createPaciente p => exact WF_createPaciente_handler s p hwf
  | updatePaciente id p => exact WF_updatePaciente_handler s id p hwf
  | deletePaciente id => exact WF_deletePaciente_handler s id hwf
  | getCitas => rw [getCitas_state]; exact hwf
  | getOneCita prof pac fecha => rw [getOneCita_state]; exact hwf
  | createCita p => exact WF_createCita_handler s p hwf
  | updateCita prof pac fecha p => exact WF_updateCita_handler s prof pac fecha p hwf
  | deleteCita prof pac fecha => exact WF_deleteCita_handler s prof pac fecha hwf

/-- Every reachable state is well-formed. -/
theorem reachable_WF {s : DB} (h : Reachable s) : WF s := by
  unfold Reachable at h
  induction h with
  | refl =>
    refine ⟨List.Pairwise.nil, List.Pairwise.nil, List.Pairwise.nil, ?_⟩
    intro c hc
    exact absurd hc (List.not_mem_nil c)
  | tail hsteps hstep ih => exact WF_step ih hstep

/-- The double-booked state is reachable: create the doctor, both patients,
and two citas sharing `fecha_hora` and doctor but not patient. -/
theorem reachable_dbDoubleBooked : Reachable dbDoubleBooked := by
  have h1 : Step initDB dbAna := by
    have h := Step.createDoctor initDB anaPayload
    have e : (createDoctor initDB anaPayload).2 = dbAna := by decide
    rwa [e] at h
  have h2 : Step dbAna dbDoctorPaciente := by
    have h := Step.createPaciente dbAna luisPayload
    have e : (createPaciente dbAna luisPayload).2 = dbDoctorPaciente := by decide
    rwa [e] at h
  have h3 : Step dbDoctorPaciente dbAnaPac2 := by
    have h := Step.createPaciente dbDoctorPaciente martaPayload
    have e : (createPaciente dbDoctorPaciente martaPayload).2 = dbAnaPac2 := by decide
    rwa [e] at h
  have h4 : Step dbAnaPac2 dbCita1 := by
    have h := Step.createCita dbAnaPac2 citaPayload5
    have e : (createCita dbAnaPac2 citaPayload5).2 = dbCita1 := by decide
    rwa [e] at h
  have h5 : Step dbCita1 dbDoubleBooked := by
    have h := Step.createCita dbCita1 citaPayload5b
    have e : (createCita dbCita1 citaPayload5b).2 = dbDoubleBooked := by decide
    rwa [e] at h
  show Relation.ReflTransGen Step initDB dbDoubleBooked
  exact ((((Relation.ReflTransGen.refl.tail h1).tail h2).tail h3).tail h4).tail h5

/-! ### C5 and C6 -/

/-- C5: in every reachable state, every stored cita's `id_profesional`
matches an existing doctor and its `id_numeroCedula` an existing patient;
and `createCita` with a payload naming a non-existent doctor or patient
replies 500 and inserts nothing. -/
theorem C5_referential_integrity :
    (∀ s : DB, Reachable s → RefIntegrity s) ∧
    (∀ (s : DB) (p : CitaPayload),
      ((∃ k, p.id_profesional = some k ∧ findDoctor s k = none) ∨
        (∃ k, p.id_numeroCedula = some k ∧ findPaciente s k = none)) →
      (createCita s p).1.status = 500 ∧ (createCita s p).2 = s) := by
  constructor
  · exact fun s h => (reachable_WF h).2.2.2
  · intro s p h
    cases hc : s.conn with
    | false => simp [createCita, citaCreate, hc]
    | true =>
      obtain ⟨o1, o2, o3⟩ := p
      cases o1 with
      | none => cases o2 <;> cases o3 <;> simp [createCita, citaCreate, hc]
      | some fe =>
        cases o2 with
        | none => cases o3 <;> simp [createCita, citaCreate, hc]
        | some pr =>
          cases o3 with
          | none => simp [createCita, citaCreate, hc]
          | some pa =>
            rcases h with ⟨k, hk, hfd⟩ | ⟨k, hk, hfp⟩
            · simp only [Option.some.injEq] at hk
              subst hk
              simp [createCita, citaCreate, hc, hfd]
            · simp only [Option.some.injEq] at hk
              subst hk
              cases hfdoc : findDoctor s pr with
              | none => simp [createCita, citaCreate, hc, hfdoc]
              | some dd => simp [createCita, citaCreate, hc, hfdoc, hfp]

/-- Witness for C5: integrity of the reachable double-booked state, and a
create against the empty state naming doctor 1 is rejected. -/
theorem C5_referential_integrity_witness :
    RefIntegrity dbDoubleBooked ∧
    ((createCita initDB citaPayload5).1.status = 500 ∧
      (createCita initDB citaPayload5).2 = initDB) :=
  ⟨C5_referential_integrity.1 dbDoubleBooked reachable_dbDoubleBooked,
   C5_referential_integrity.2 initDB citaPayload5 (Or.inl ⟨1, rfl, rfl⟩)⟩

/-- C6: in every reachable state no two stored citas share the full triple
(`fecha_hora`, `id_profesional`, `id_numeroCedula`); creating an
already-present triple replies 500 and changes nothing; and the invariant
does not forbid two citas sharing `fecha_hora` and doctor with different
patients — such a state is reachable. -/
theorem C6_composite_key_unique :
    (∀ s : DB, Reachable s → CitasWF s.citas) ∧
    (∀ (s : DB) (p : CitaPayload) (f pr pa : Int),
      p.fecha_hora = some f → p.id_profesional = some pr →
      p.id_numeroCedula = some pa → (findCita s f pr pa).isSome →
      (createCita s p).1.status = 500 ∧ (createCita s p).2 = s) ∧
    (∃ s : DB, Reachable s ∧ ∃ c1 c2 : Cita, c1 ∈ s.citas ∧ c2 ∈ s.citas ∧
      c1.fecha_hora = c2.fecha_hora ∧ c1.id_profesional = c2.id_profesional ∧
      c1.id_numeroCedula ≠ c2.id_numeroCedula) := by
  refine ⟨?_, ?_, ?_⟩
  · exact fun s h => (reachable_WF h).2.2.1
  · intro s p f pr pa hf hpr hpa hdup
    obtain ⟨c, hcq⟩ := Option.isSome_iff_exists.mp hdup
    cases hc : s.conn with
    | false => simp [createCita, citaCreate, hc]
    | true =>
      cases hfd : findDoctor s pr with
      | none => simp [createCita, citaCreate, hc, hf, hpr, hpa, hfd]
      | some dd =>
        cases hfp : findPaciente s pa with
        | none => simp [createCita, citaCreate, hc, hf, hpr, hpa, hfd, hfp]
        | some qq => simp [createCita, citaCreate, hc, hf, hpr, hpa, hfd, hfp, hcq]
  · exact ⟨dbDoubleBooked, reachable_dbDoubleBooked, ⟨5, 1, 10⟩, ⟨5, 1, 11⟩,
      by decide, by decide, rfl, rfl, by decide⟩

/-- Witness for C6: key uniqueness of the reachable double-booked state,
and re-creating the already present triple (5, 1, 10) is rejected. -/
theorem C6_composite_key_unique_witness :
    CitasWF dbDoubleBooked.citas ∧
    ((createCita dbWithCita citaPayload5).1.status = 500 ∧
      (createCita dbWithCita citaPayload5).2 = dbWithCita) :=
  ⟨C6_composite_key_unique.1 dbDoubleBooked reachable_dbDoubleBooked,
   C6_composite_key_unique.2.1 dbWithCita citaPayload5 5 1 10 rfl rfl rfl (by decide)⟩

end Eps
